import Mathlib

/-!
Shallow embedding of the cogentxui workflow orchestration engine
(src/archon/archon_graph.py, src/archon/pydantic_ai_coder.py,
src/archon/utils/json_utils.py).

External collaborators (the completion service, the embedding service, the
Supabase artifact store) are modelled as explicit response values: a call
that can raise a Python exception is an `Except String` value, a call that
always returns is a plain value.  Python dictionaries of strings are
association lists in insertion order; Python byte blobs are strings.
-/

namespace Cogentx

/-- A serialized message record (an element of `AgentState.messages`,
a `bytes` blob in the source), modelled as a string. -/
abbrev MsgBlob := String

/-- The reducer annotation on `AgentState.messages` in archon_graph.py:
`Annotated[List[bytes], lambda x, y: x + y]` - list concatenation. -/
def messagesReducer (x y : List MsgBlob) : List MsgBlob := x ++ y

/-- The messages field after a sequence of node state updates: langgraph
folds the channel reducer over the updates returned by executed nodes. -/
def applyMessageUpdates (init : List MsgBlob) (updates : List (List MsgBlob)) : List MsgBlob :=
  updates.foldl messagesReducer init

/-- `route_user_message` in archon_graph.py: returns the string
"finish_conversation" exactly when the router agent's output `result.data`
is that exact text, and "coder_agent" for every other classifier output. -/
def route_user_message (classifier_output : String) : String :=
  if classifier_output = "finish_conversation" then "finish_conversation" else "coder_agent"

/-- Embedding vectors (`List[float]` in the source, modelled over ℚ). -/
abbrev Vec := List ℚ

/-- `get_embedding` in pydantic_ai_coder.py: the embedding-service call is
wrapped in try/except; on any exception it returns `[0] * 1536`. -/
def get_embedding (svc : Except String Vec) : Vec :=
  match svc with
  | .ok v => v
  | .error _ => List.replicate 1536 0

/-- A row of the `agent_templates` table.  `best_match.get(k, '')` defaults a
missing code column to the empty string, so the columns are plain strings. -/
structure Template where
  purpose : String
  agents_code : String
  tools_code : String
  tasks_code : String
  crew_code : String
  deriving DecidableEq, Repr

/-- The Supabase collaborator as seen by one `find_similar_agent_templates`
invocation: the embedding-service response, the `agent_templates` full-table
select, the `match_agent_templates` rpc as a function of (query embedding,
match_threshold, match_count), and the `ilike` purpose search per keyword.
Each call may raise, hence `Except`. -/
structure SupabaseClient where
  embedSvc : Except String Vec
  allTemplates : Except String (List Template)
  matchTemplates : Vec → ℚ → Nat → Except String (List Template)
  ilikePurpose : String → Except String (List Template)

/-- The fixed keyword list of the last-resort substring search in
`find_similar_agent_templates`. -/
def template_keywords : List String := ["newsletter", "write", "content", "article"]

/-- The `code_dict` built from the best match before returning. -/
def code_dict (t : Template) : List (String × String) :=
  [("agents_code", t.agents_code), ("tools_code", t.tools_code),
   ("tasks_code", t.tasks_code), ("crew_code", t.crew_code)]

/-- The keyword fallback loop: for each keyword in order, run the `ilike`
purpose query; the first keyword with a non-empty result yields its first
row (`templates.data[0]`); the for-else falls through to `none`. -/
def keyword_search (db : SupabaseClient) : List String → Except String (Option Template)
  | [] => Except.ok none
  | k :: rest =>
    match db.ilikePurpose k with
    | .error e => .error e
    | .ok [] => keyword_search db rest
    | .ok (t :: _) => .ok (some t)

/-- The body of `find_similar_agent_templates` before its catch-all handler:
embed the query (never fails), read the whole table (empty table returns the
"No templates available" marker), similarity query at threshold 0.5 limit 5,
on empty retry at threshold 0.3 limit 10, on empty fall back to the keyword
loop; any similarity hit selects the first-ranked row `result.data[0]`. -/
def find_similar_core (db : SupabaseClient) : Except String (String × List (String × String)) :=
  match db.allTemplates with
  | .error e => .error e
  | .ok [] => .ok ("No templates available", [])
  | .ok (_ :: _) =>
    match db.matchTemplates (get_embedding db.embedSvc) (1/2) 5 with
    | .error e => .error e
    | .ok r1 =>
      match (match r1 with
             | [] => db.matchTemplates (get_embedding db.embedSvc) (3/10) 10
             | _ :: _ => .ok r1) with
      | .error e => .error e
      | .ok [] =>
        match keyword_search db template_keywords with
        | .error e => .error e
        | .ok none => .ok ("No similar templates found", [])
        | .ok (some t) => .ok (t.purpose, code_dict t)
      | .ok (best :: _) => .ok (best.purpose, code_dict best)

/-- `find_similar_agent_templates`: the whole body runs under
try/except Exception, which converts any internal error into the
("Error finding similar templates", \x7b\x7d) marker result. -/
def find_similar_agent_templates (db : SupabaseClient) : String × List (String × String) :=
  match find_similar_core db with
  | .ok r => r
  | .error _ => ("Error finding similar templates", [])

/-- A demo template row used to instantiate hypothesis-bearing theorems. -/
def demoTemplate : Template :=
  ⟨"Writes a weekly newsletter", "agents src", "tools src", "tasks src", "crew src"⟩

/-- A demo Supabase collaborator whose first similarity query already hits. -/
def demoDB : SupabaseClient :=
  ⟨Except.ok [1, 0, 0], Except.ok [demoTemplate],
   fun _ _ _ => Except.ok [demoTemplate], fun _ => Except.ok []⟩

/-- The per-component adaptation loop of `adapt_template_code`: one
completion call per (file_type, code) pair, in order; a failing call aborts
the loop with its error. -/
def adapt_loop (model_run : String → String → Except String String) :
    List (String × String) → Except String (List (String × String))
  | [] => .ok []
  | (file_type, code) :: rest =>
    match model_run file_type code with
    | .error e => .error e
    | .ok adapted =>
      match adapt_loop model_run rest with
      | .error e => .error e
      | .ok tail => .ok ((file_type, adapted) :: tail)

/-- `adapt_template_code`: the loop runs under try/except Exception which
converts any error into the empty mapping. -/
def adapt_template_code (model_run : String → String → Except String String)
    (template_code : List (String × String)) : List (String × String) :=
  match adapt_loop model_run template_code with
  | .ok adapted => adapted
  | .error _ => []

/-- Which branch of the CodeGeneration stage produced the output. -/
inductive CoderPath
  | adapted
  | fullGen
  deriving DecidableEq, Repr

/-- The observable outcome of one `coder_agent` execution: the branch taken,
the workbench files written, and the state update for the messages channel. -/
structure CoderResult where
  path : CoderPath
  files : List (String × String)
  messagesUpdate : List MsgBlob
  deriving DecidableEq, Repr

/-- The collaborator responses for one `coder_agent` execution: the template
lookup (purpose and code mapping), the template adaptation result, and the
full-generation run whose success value is `result.new_messages_json()`. -/
structure CoderDeps where
  findRes : Except String (String × List (String × String))
  adaptRes : Except String (List (String × String))
  genRes : Except String MsgBlob

/-- Python truthiness of `d and isinstance(d, dict) and any(d.values())` for
a string-valued dict: at least one value is a non-empty string. -/
def any_nonempty (d : List (String × String)) : Bool :=
  d.any (fun kv => kv.2 ≠ "")

/-- The workbench files written on the adaptation path: entries whose code
is blank after stripping are skipped, and `file_type.replace('_code','.py')`
names the file. -/
def written_files (adapted : List (String × String)) : List (String × String) :=
  (adapted.filter (fun kv => kv.2.trim ≠ "")).map
    (fun kv => (kv.1.replace "_code" ".py", kv.2))

/-- `coder_agent` in archon_graph.py.  The template block runs under
try/except: a failure anywhere in it falls through to full generation.  A
found template whose mapping has at least one non-empty value is adapted;
an adaptation result with at least one non-empty value writes the adapted
files and returns the empty messages update; every other case runs full
generation, which appends the single serialized `new_messages_json()` record
and whose own failure is NOT caught (it propagates to the caller). -/
def full_generation (genRes : Except String MsgBlob) : Except String CoderResult :=
  match genRes with
  | .ok msgs_json => .ok ⟨.fullGen, [], [msgs_json]⟩
  | .error e => .error e

/-- The coder_agent node itself; see `full_generation` for the fallback
branch shared by all non-adaptation outcomes. -/
def coder_agent (d : CoderDeps) : Except String CoderResult :=
  match d.findRes with
  | .error _ => full_generation d.genRes
  | .ok (_purpose, template_code) =>
    if any_nonempty template_code then
      match d.adaptRes with
      | .error _ => full_generation d.genRes
      | .ok adapted_code =>
        if any_nonempty adapted_code then
          .ok ⟨.adapted, written_files adapted_code, []⟩
        else
          full_generation d.genRes
    else
      full_generation d.genRes

/-- Demo deps on which template adaptation succeeds. -/
def demoCoderDeps : CoderDeps :=
  ⟨Except.ok ("Writes a weekly newsletter", [("agents_code", "agents src")]),
   Except.ok [("agents_code", "adapted agents src")],
   Except.ok "gen transcript"⟩

/-- Demo deps on which adaptation succeeds, used against the claim that the
stage always appends a message record. -/
def c7Deps : CoderDeps :=
  ⟨Except.ok ("Writes a weekly newsletter", [("agents_code", "agents src")]),
   Except.ok [("agents_code", "adapted agents src"), ("tools_code", "")],
   Except.ok "gen transcript"⟩

/-- The collaborator responses of one `define_scope_with_reasoner`
execution: the documentation listing (the raw Supabase select under the
helper's own try/except) and the reasoner completion call as a function of
the listed pages. -/
structure ScopeDeps where
  docPages : Except String (List String)
  reasonerRun : List String → Except String String

/-- `list_documentation_pages_helper`: its body runs under try/except and an
error returns the empty list; a successful select yields the sorted set of
urls. -/
def list_documentation_pages_helper (r : Except String (List String)) : List String :=
  match r with
  | .ok urls => urls.dedup.mergeSort (fun a b => decide (a ≤ b))
  | .error _ => []

/-- `define_scope_with_reasoner`: lists documentation pages (errors there
are swallowed by the helper), then calls the reasoner on a prompt built from
the message and the pages.  The reasoner call has NO handler: its failure
propagates out of the stage. -/
def define_scope_with_reasoner (d : ScopeDeps) : Except String String :=
  match d.reasonerRun (list_documentation_pages_helper d.docPages) with
  | .ok scope => .ok scope
  | .error e => .error e

/-- Demo scope deps where both the document index and the reasoner fail. -/
def c6Deps : ScopeDeps :=
  ⟨Except.error "document index down", fun _ => Except.error "completion provider down"⟩

/-- The nodes of the langgraph StateGraph built in archon_graph.py,
plus the START and END sentinels. -/
inductive Node
  | start
  | define_scope_with_reasoner
  | create_architecture
  | create_implementation_plan
  | coder_agent
  | get_next_user_message
  | finish_conversation
  | graph_end
  deriving DecidableEq, Repr

/-- The unconditional `add_edge` calls of the builder.
`get_next_user_message` has only conditional outgoing edges and END none. -/
def static_successor : Node → Option Node
  | .start => some .define_scope_with_reasoner
  | .define_scope_with_reasoner => some .create_architecture
  | .create_architecture => some .create_implementation_plan
  | .create_implementation_plan => some .coder_agent
  | .coder_agent => some .get_next_user_message
  | .get_next_user_message => none
  | .finish_conversation => some .graph_end
  | .graph_end => none

/-- The conditional edge map attached to `get_next_user_message`:
\x7b"coder_agent": "coder_agent", "finish_conversation": "finish_conversation"\x7d,
keyed by the value returned by `route_user_message`. -/
def conditional_successor (decision : String) : Option Node :=
  if decision = "coder_agent" then some .coder_agent
  else if decision = "finish_conversation" then some .finish_conversation
  else none

/-- Outcome of driving the graph until it suspends or terminates. -/
inductive RunOutcome
  | suspended
  | completed
  | outOfFuel
  deriving DecidableEq, Repr

/-- Drive the graph along the unconditional edges from a node, collecting
the executed stage nodes in order.  Reaching `get_next_user_message`
suspends (its body calls `interrupt`) and reaching END completes.  Fuel
bounds the walk; the graph segment between interrupts is acyclic, so any
fuel above the node count is enough. -/
def run_until_interrupt : Nat → Node → List Node × RunOutcome
  | 0, _ => ([], .outOfFuel)
  | fuel + 1, n =>
    match n with
    | .get_next_user_message => ([], .suspended)
    | .graph_end => ([], .completed)
    | m =>
      match static_successor m with
      | some n2 =>
        let r := run_until_interrupt fuel n2
        (if m = Node.start then r.1 else m :: r.1, r.2)
      | none => ([], .completed)

/-- Resuming after a suspension at `get_next_user_message`: the new user
message is classified by `route_user_message` and the conditional edge map
selects the successor, from which the walk continues. -/
def resume_from_interrupt (classifier_output : String) (fuel : Nat) : List Node × RunOutcome :=
  match conditional_successor (route_user_message classifier_output) with
  | some n => run_until_interrupt fuel n
  | none => ([], .outOfFuel)

/-- Parsed JSON values as produced by `json.loads`.  Python parses an
integer literal to `int` (`num`) and a literal carrying a fraction or an
exponent to `float`, modelled exactly as mantissa * 10 ^ exp10 (`numFrac`);
objects are insertion-ordered key/value lists where a duplicate key
overwrites in place, as a Python dict does. -/
inductive Json
  | null
  | bool (b : Bool)
  | num (n : Int)
  | numFrac (mantissa : Int) (exp10 : Int)
  | str (s : String)
  | arr (xs : List Json)
  | obj (members : List (String × Json))

/-- The four whitespace characters `json.loads` skips between tokens. -/
def isJsonWs (c : Char) : Bool := c = ' ' || c = '\t' || c = '\n' || c = '\r'

def skipWs (cs : List Char) : List Char := cs.dropWhile isJsonWs

def digitsToNat (ds : List Char) : Nat :=
  ds.foldl (fun acc c => acc * 10 + (c.toNat - 48)) 0

def hexVal (c : Char) : Option Nat :=
  if c.isDigit then some (c.toNat - 48)
  else if 'a' ≤ c ∧ c ≤ 'f' then some (c.toNat - 87)
  else if 'A' ≤ c ∧ c ≤ 'F' then some (c.toNat - 55)
  else none

/-- JSON string body after the opening quote: doubly-quoted, with the
standard escapes; unescaped control characters are rejected as in Python.
(Surrogate-pair recombination is out of scope of the claims.) -/
def parseStringAux : List Char → List Char → Option (String × List Char)
  | _, [] => none
  | acc, c :: rest =>
    if c = '"' then some (String.mk acc.reverse, rest)
    else if c = '\\' then
      match rest with
      | [] => none
      | e :: rest2 =>
        if e = 'u' then
          match rest2 with
          | h1 :: h2 :: h3 :: h4 :: rest3 =>
            match hexVal h1, hexVal h2, hexVal h3, hexVal h4 with
            | some a, some b, some c2, some d =>
              parseStringAux (Char.ofNat (((a * 16 + b) * 16 + c2) * 16 + d) :: acc) rest3
            | _, _, _, _ => none
          | _ => none
        else if e = '"' ∨ e = '\\' ∨ e = '/' then parseStringAux (e :: acc) rest2
        else if e = 'b' then parseStringAux (Char.ofNat 8 :: acc) rest2
        else if e = 'f' then parseStringAux (Char.ofNat 12 :: acc) rest2
        else if e = 'n' then parseStringAux (Char.ofNat 10 :: acc) rest2
        else if e = 'r' then parseStringAux (Char.ofNat 13 :: acc) rest2
        else if e = 't' then parseStringAux (Char.ofNat 9 :: acc) rest2
        else none
    else if c.toNat < 32 then none
    else parseStringAux (c :: acc) rest

/-- Optional JSON fraction part: a '.' must be followed by at least one
digit; no dot leaves the fraction empty. -/
def parseFrac (cs : List Char) : Option (List Char × List Char) :=
  match cs with
  | '.' :: rest =>
    match rest.takeWhile Char.isDigit with
    | [] => none
    | fds => some (fds, rest.dropWhile Char.isDigit)
  | _ => some ([], cs)

/-- Optional JSON exponent part: e/E, optional sign, at least one digit. -/
def parseExp (cs : List Char) : Option (Option Int × List Char) :=
  match cs with
  | [] => some (none, [])
  | c :: rest =>
    if c = 'e' ∨ c = 'E' then
      match (match rest with
             | '+' :: r2 => ((1 : Int), r2)
             | '-' :: r2 => ((-1 : Int), r2)
             | _ => ((1 : Int), rest)) with
      | (sgn, r2) =>
        match r2.takeWhile Char.isDigit with
        | [] => none
        | eds => some (some (sgn * Int.ofNat (digitsToNat eds)), r2.dropWhile Char.isDigit)
    else some (none, cs)

/-- JSON number: optional minus, integer part without leading zeros,
optional fraction, optional exponent.  A plain integer literal becomes
`num`; anything with a fraction or exponent becomes `numFrac`. -/
def parseNumber (cs : List Char) : Option (Json × List Char) :=
  match (match cs with
         | '-' :: rest => (true, rest)
         | _ => (false, cs)) with
  | (neg, cs1) =>
    match cs1.takeWhile Char.isDigit with
    | [] => none
    | ds =>
      if ds.head? = some '0' ∧ 1 < ds.length then none
      else
        match parseFrac (cs1.dropWhile Char.isDigit) with
        | none => none
        | some (fds, cs3) =>
          match parseExp cs3 with
          | none => none
          | some (eo, cs4) =>
            match (if neg then -Int.ofNat (digitsToNat (ds ++ fds))
                   else Int.ofNat (digitsToNat (ds ++ fds))) with
            | m =>
              match fds, eo with
              | [], none => some (Json.num m, cs4)
              | _, _ => some (Json.numFrac m ((eo.getD 0) - Int.ofNat fds.length), cs4)

/-- Insert into a Python dict under construction: a duplicate key
overwrites its value in place, a new key appends. -/
def dictInsert (acc : List (String × Json)) (k : String) (v : Json) : List (String × Json) :=
  if acc.any (fun kv => kv.1 == k) then
    acc.map (fun kv => if kv.1 = k then (k, v) else kv)
  else acc ++ [(k, v)]

mutual

/-- One JSON value, fuel-bounded recursive descent (each nesting level of
the input consumes at least one character, so fuel above the input length
is always enough). -/
def parseValue : Nat → List Char → Option (Json × List Char)
  | 0, _ => none
  | fuel + 1, cs =>
    match skipWs cs with
    | [] => none
    | c :: rest =>
      if c = '{' then
        match skipWs rest with
        | '}' :: rest2 => some (Json.obj [], rest2)
        | _ => (parseObjMembers fuel rest []).map (fun p => (Json.obj p.1, p.2))
      else if c = '[' then
        match skipWs rest with
        | ']' :: rest2 => some (Json.arr [], rest2)
        | _ => (parseArrElems fuel rest []).map (fun p => (Json.arr p.1, p.2))
      else if c = '"' then
        (parseStringAux [] rest).map (fun p => (Json.str p.1, p.2))
      else if c = 't' then
        match rest with
        | 'r' :: 'u' :: 'e' :: rest2 => some (Json.bool true, rest2)
        | _ => none
      else if c = 'f' then
        match rest with
        | 'a' :: 'l' :: 's' :: 'e' :: rest2 => some (Json.bool false, rest2)
        | _ => none
      else if c = 'n' then
        match rest with
        | 'u' :: 'l' :: 'l' :: rest2 => some (Json.null, rest2)
        | _ => none
      else if c = '-' ∨ c.isDigit then parseNumber (c :: rest)
      else none

/-- Members of a non-empty JSON object after its opening brace. -/
def parseObjMembers :
    Nat → List Char → List (String × Json) → Option (List (String × Json) × List Char)
  | 0, _, _ => none
  | fuel + 1, cs, acc =>
    match skipWs cs with
    | '"' :: rest =>
      match parseStringAux [] rest with
      | none => none
      | some (key, rest2) =>
        match skipWs rest2 with
        | ':' :: rest3 =>
          match parseValue fuel rest3 with
          | none => none
          | some (v, rest4) =>
            match skipWs rest4 with
            | ',' :: rest5 => parseObjMembers fuel rest5 (dictInsert acc key v)
            | '}' :: rest5 => some (dictInsert acc key v, rest5)
            | _ => none
        | _ => none
    | _ => none

/-- Elements of a non-empty JSON array after its opening bracket. -/
def parseArrElems : Nat → List Char → List Json → Option (List Json × List Char)
  | 0, _, _ => none
  | fuel + 1, cs, acc =>
    match parseValue fuel cs with
    | none => none
    | some (v, rest) =>
      match skipWs rest with
      | ',' :: rest2 => parseArrElems fuel rest2 (acc ++ [v])
      | ']' :: rest2 => some (acc ++ [v], rest2)
      | _ => none

end

/-- `json.loads` on a string: parse one value and require only trailing
whitespace after it. -/
def jsonLoads (s : String) : Option Json :=
  match parseValue (s.length + 1) s.toList with
  | some (v, rest) => if skipWs rest = [] then some v else none
  | none => none

def firstIndexOf (c : Char) (cs : List Char) : Option Nat :=
  match cs with
  | [] => none
  | x :: rest => if x = c then some 0 else (firstIndexOf c rest).map (fun i => i + 1)

def lastIndexOf (c : Char) (cs : List Char) : Option Nat :=
  match cs with
  | [] => none
  | x :: rest =>
    match lastIndexOf c rest with
    | some i => some (i + 1)
    | none => if x = c then some 0 else none

/-- The brace-delimited slice shared by the regex layer and the find/rfind
layer of `clean_and_parse_json`: the greedy DOTALL pattern, like
`text.find` / `text.rfind`, selects from the first opening brace to the
last closing brace, provided the first precedes the last. -/
def braceSlice (s : String) : Option String :=
  match firstIndexOf '{' s.toList, lastIndexOf '}' s.toList with
  | some i, some j =>
    if i < j then some (String.mk ((s.toList.drop i).take (j - i + 1))) else none
  | _, _ => none

/-- `text.replace("'", '"')`: every single quote becomes a double quote. -/
def replaceSingleQuotes (s : String) : String :=
  String.mk (s.toList.map (fun c => if c.toNat = 39 then '"' else c))

/-- Python `\w` over ASCII: letters, digits, underscore. -/
def isWordChar (c : Char) : Bool := c.isAlphanum || c = '_'

/-- The substitution of the pattern (word run)(colon) by (quoted word
run)(colon), scanning left to right over non-overlapping matches exactly as
`re.sub` does: a word run not followed by a colon is copied unchanged (no
position inside it can start a match either). -/
def quoteKeysAux : Nat → List Char → List Char
  | 0, cs => cs
  | fuel + 1, cs =>
    match cs with
    | [] => []
    | c :: rest =>
      if isWordChar c then
        match rest.dropWhile isWordChar with
        | ':' :: tail =>
          '"' :: (c :: rest.takeWhile isWordChar) ++ ('"' :: ':' :: quoteKeysAux fuel tail)
        | rest2 => (c :: rest.takeWhile isWordChar) ++ quoteKeysAux fuel rest2
      else c :: quoteKeysAux fuel rest

def quoteKeys (s : String) : String := String.mk (quoteKeysAux (s.length + 1) s.toList)

/-- The quote/key normalization layer: single quotes doubled, then
unquoted property names quoted. -/
def fix_quotes (s : String) : String := quoteKeys (replaceSingleQuotes s)

/-- Layer 2 of `clean_and_parse_json`: parse the brace-delimited slice of
the text, when there is one. -/
def layer2_result (s : String) : Option Json :=
  match braceSlice s with
  | some j => jsonLoads j
  | none => none

/-- Layer 4 of `clean_and_parse_json`: quote-normalize the brace-delimited
slice and parse it. -/
def layer4_result (s : String) : Option Json :=
  match braceSlice s with
  | some j => jsonLoads (fix_quotes j)
  | none => none

/-- `clean_and_parse_json` in utils/json_utils.py: empty input is rejected,
then strict parse, then the brace-slice extraction, then quote/key
normalization of the whole text, then quote/key normalization of the slice;
every parse failure is caught and the final fallback returns `none`. -/
def clean_and_parse_json (text : String) : Option Json :=
  if text = "" then none
  else
    match jsonLoads text with
    | some v => some v
    | none =>
      match layer2_result text with
      | some v => some v
      | none =>
        match jsonLoads (fix_quotes text) with
        | some v => some v
        | none =>
          match layer4_result text with
          | some v => some v
          | none => none

/-- All four parsing layers fail on the input: nothing in the text is
recoverable JSON. -/
def fullyUnparsable (s : String) : Prop :=
  jsonLoads s = none ∧ layer2_result s = none ∧
  jsonLoads (fix_quotes s) = none ∧ layer4_result s = none

end Cogentx

namespace Cogentx

/-- C1: the messages channel of the conversation state is append-only: the
reducer only concatenates, so across any sequence of stage executions the
previous history is a prefix of the new one (no entry is lost, reordered or
altered) and its length never decreases. -/
theorem messages_append_only (init : List MsgBlob) (updates : List (List MsgBlob)) :
    init <+: applyMessageUpdates init updates ∧
    init.length ≤ (applyMessageUpdates init updates).length := by
  have h : init <+: applyMessageUpdates init updates := by
    induction updates generalizing init with
    | nil => exact List.prefix_rfl
    | cons u us ih =>
      have h1 : init <+: messagesReducer init u := List.prefix_append init u
      exact h1.trans (ih (messagesReducer init u))
  exact ⟨h, h.length_le⟩

/-- C4: routing is a total function into the closed set
\x7b"coder_agent", "finish_conversation"\x7d, and it returns
"finish_conversation" exactly on the one exact finish marker: every other
classifier output, however malformed, routes to "coder_agent". -/
theorem route_user_message_closed_set (s : String) :
    (route_user_message s = "coder_agent" ∨ route_user_message s = "finish_conversation") ∧
    (route_user_message s = "finish_conversation" ↔ s = "finish_conversation") := by
  unfold route_user_message
  by_cases h : s = "finish_conversation" <;> simp [h]

/-- C10: when the embedding-service call fails, `get_embedding` swallows the
error and returns the degenerate all-zero vector of length 1536, so the
failure is never propagated to the similarity search. -/
theorem get_embedding_zero_on_failure (svc : Except String Vec)
    (h : ∃ e, svc = Except.error e) :
    get_embedding svc = List.replicate 1536 0 ∧
    (get_embedding svc).length = 1536 ∧
    ∀ x ∈ get_embedding svc, x = 0 := by
  obtain ⟨e, he⟩ := h
  subst he
  have hu : get_embedding (Except.error e) = List.replicate 1536 0 := rfl
  refine ⟨rfl, ?_, ?_⟩
  · rw [hu]
    exact List.length_replicate 1536 0
  · intro x hx
    rw [hu] at hx
    exact List.eq_of_mem_replicate hx

/-- Witness for C10 at a concrete failing embedding call. -/
theorem get_embedding_zero_on_failure_w :
    get_embedding (Except.error "connection refused") = List.replicate 1536 0 ∧
    (get_embedding (Except.error "connection refused")).length = 1536 ∧
    ∀ x ∈ get_embedding (Except.error "connection refused"), x = 0 :=
  get_embedding_zero_on_failure (Except.error "connection refused") ⟨"connection refused", rfl⟩

/-- C2: given a readable non-empty template table, retrieval follows the
fallback chain exactly: a non-empty threshold-0.5/limit-5 result selects its
first-ranked row; otherwise a non-empty threshold-0.3/limit-10 result selects
its first-ranked row; otherwise the keyword loop runs, where the first
keyword with a hit yields its first row and an empty keyword result moves on
to the next keyword. -/
theorem find_similar_fallback_chain (db : SupabaseClient) (ts r1 r2 : List Template)
    (hall : db.allTemplates = Except.ok ts) (hne : ts ≠ [])
    (h1 : db.matchTemplates (get_embedding db.embedSvc) (1/2) 5 = Except.ok r1)
    (h2 : db.matchTemplates (get_embedding db.embedSvc) (3/10) 10 = Except.ok r2) :
    (∀ b rest, r1 = b :: rest →
      find_similar_agent_templates db = (b.purpose, code_dict b)) ∧
    (r1 = [] → ∀ b rest, r2 = b :: rest →
      find_similar_agent_templates db = (b.purpose, code_dict b)) ∧
    (r1 = [] → r2 = [] → ∀ t,
      keyword_search db template_keywords = Except.ok (some t) →
      find_similar_agent_templates db = (t.purpose, code_dict t)) ∧
    (r1 = [] → r2 = [] →
      keyword_search db template_keywords = Except.ok none →
      find_similar_agent_templates db = ("No similar templates found", [])) ∧
    (∀ k rest t ts', db.ilikePurpose k = Except.ok (t :: ts') →
      keyword_search db (k :: rest) = Except.ok (some t)) ∧
    (∀ k rest, db.ilikePurpose k = Except.ok [] →
      keyword_search db (k :: rest) = keyword_search db rest) := by
  obtain ⟨t0, ts0, rfl⟩ : ∃ t0 ts0, ts = t0 :: ts0 := by
    cases ts with
    | nil => exact absurd rfl hne
    | cons a l => exact ⟨a, l, rfl⟩
  refine ⟨?_, ?_, ?_, ?_, ?_, ?_⟩
  · intro b rest hr1
    subst hr1
    unfold find_similar_agent_templates find_similar_core
    rw [hall, h1]
  · intro hr1 b rest hr2
    subst hr1; subst hr2
    unfold find_similar_agent_templates find_similar_core
    rw [hall, h1, h2]
  · intro hr1 hr2 t hk
    subst hr1; subst hr2
    unfold find_similar_agent_templates find_similar_core
    rw [hall, h1, h2, hk]
  · intro hr1 hr2 hk
    subst hr1; subst hr2
    unfold find_similar_agent_templates find_similar_core
    rw [hall, h1, h2, hk]
  · intro k rest t ts' hk
    unfold keyword_search
    rw [hk]
  · intro k rest hk
    show (match db.ilikePurpose k with
          | .error e => Except.error e
          | .ok [] => keyword_search db rest
          | .ok (t :: _) => Except.ok (some t)) = keyword_search db rest
    rw [hk]

/-- Witness for C2: on the demo collaborator the first similarity query hits
and the first-ranked row is selected. -/
theorem find_similar_fallback_chain_w :
    find_similar_agent_templates demoDB = (demoTemplate.purpose, code_dict demoTemplate) :=
  (find_similar_fallback_chain demoDB [demoTemplate] [demoTemplate] [demoTemplate]
    rfl (by simp) rfl rfl).1 demoTemplate [] rfl

/-- C5: the retriever is total: whatever the collaborator responses are
(including errors raised by any of the calls), it returns either a match,
namely some row's purpose with its code dictionary, or one of the explicit
no-match/error marker strings paired with the empty dictionary; it never
propagates an exception. -/
theorem find_similar_total (db : SupabaseClient) :
    (∃ t : Template, find_similar_agent_templates db = (t.purpose, code_dict t)) ∨
    ((find_similar_agent_templates db).2 = [] ∧
      ((find_similar_agent_templates db).1 = "No templates available" ∨
       (find_similar_agent_templates db).1 = "No similar templates found" ∨
       (find_similar_agent_templates db).1 = "Error finding similar templates")) := by
  unfold find_similar_agent_templates find_similar_core
  rcases hall : db.allTemplates with e | ts
  · right; exact ⟨rfl, Or.inr (Or.inr rfl)⟩
  · cases ts with
    | nil => right; exact ⟨rfl, Or.inl rfl⟩
    | cons t0 ts0 =>
      rcases h1 : db.matchTemplates (get_embedding db.embedSvc) (1/2) 5 with e | r1
      · right; exact ⟨rfl, Or.inr (Or.inr rfl)⟩
      · rcases r1 with _ | ⟨b, rest⟩
        · rcases h2 : db.matchTemplates (get_embedding db.embedSvc) (3/10) 10 with e | r2
          · right; exact ⟨rfl, Or.inr (Or.inr rfl)⟩
          · rcases r2 with _ | ⟨b2, rest2⟩
            · rcases hk : keyword_search db template_keywords with e | ot
              · right; exact ⟨rfl, Or.inr (Or.inr rfl)⟩
              · rcases ot with _ | t
                · right; exact ⟨rfl, Or.inr (Or.inl rfl)⟩
                · left; exact ⟨t, rfl⟩
            · left; exact ⟨b2, rfl⟩
        · left; exact ⟨b, rfl⟩

/-- C3: in the CodeGeneration stage, when the template lookup returned a
usable mapping and adaptation returned a mapping with at least one non-empty
component, the stage takes the adaptation branch, writes the adapted files
as its output, and its result does not depend on the full-generation
collaborator at all (full generation is never invoked); when every adapted
component is empty, the stage proceeds to full generation. -/
theorem coder_adaptation_success_path (d : CoderDeps) (p : String)
    (tc adapted : List (String × String))
    (hf : d.findRes = Except.ok (p, tc)) (htc : any_nonempty tc = true)
    (ha : d.adaptRes = Except.ok adapted) :
    (any_nonempty adapted = true →
      coder_agent d = Except.ok ⟨CoderPath.adapted, written_files adapted, []⟩ ∧
      ∀ g g', coder_agent ⟨d.findRes, d.adaptRes, g⟩ =
              coder_agent ⟨d.findRes, d.adaptRes, g'⟩) ∧
    (any_nonempty adapted = false →
      coder_agent d = full_generation d.genRes) := by
  constructor
  · intro hna
    constructor
    · simp only [coder_agent, hf, htc, ha, hna, if_true]
    · intro g g'
      simp only [coder_agent, hf, ha, htc, hna, if_true]
  · intro hna
    simp only [coder_agent, hf, htc, ha, hna, if_true, Bool.false_eq_true, if_false]

/-- Witness for C3 on concrete collaborator responses with a non-empty
adapted component. -/
theorem coder_adaptation_success_path_w :
    coder_agent demoCoderDeps =
      Except.ok ⟨CoderPath.adapted, written_files [("agents_code", "adapted agents src")], []⟩ :=
  (((coder_adaptation_success_path demoCoderDeps "Writes a weekly newsletter"
    [("agents_code", "agents src")] [("agents_code", "adapted agents src")]
    rfl (by decide) rfl).1 (by decide)).1)

/-- C7 counterexample: a CodeGeneration execution that takes the
template-adaptation branch returns the empty messages update - it appends
no serialized message record to the history. -/
theorem coder_adapted_appends_no_message :
    coder_agent c7Deps =
      Except.ok ⟨CoderPath.adapted,
        written_files [("agents_code", "adapted agents src"), ("tools_code", "")],
        ([] : List MsgBlob)⟩ := rfl

/-- C7 amended: a successful CodeGeneration execution appends exactly one
serialized message record when it took the full-generation branch, and none
when it took the template-adaptation branch. -/
theorem coder_messages_update_by_path (d : CoderDeps) (r : CoderResult)
    (h : coder_agent d = Except.ok r) :
    (r.path = CoderPath.fullGen → r.messagesUpdate.length = 1) ∧
    (r.path = CoderPath.adapted → r.messagesUpdate = []) := by
  have hfull : ∀ g : Except String MsgBlob, full_generation g = Except.ok r →
      (r.path = CoderPath.fullGen → r.messagesUpdate.length = 1) ∧
      (r.path = CoderPath.adapted → r.messagesUpdate = []) := by
    intro g hg
    cases g with
    | error e => exact absurd hg (by simp [full_generation])
    | ok j =>
      have hr : r = ⟨CoderPath.fullGen, [], [j]⟩ := (Except.ok.inj hg).symm
      subst hr
      exact ⟨fun _ => rfl, fun hp => CoderPath.noConfusion hp⟩
  obtain ⟨fr, ar, gr⟩ := d
  rcases fr with e | ⟨p, tc⟩
  · simp only [coder_agent] at h
    exact hfull gr h
  · by_cases htc : any_nonempty tc = true
    · rcases ar with e2 | adapted
      · simp only [coder_agent] at h
        rw [if_pos htc] at h
        exact hfull gr h
      · by_cases hna : any_nonempty adapted = true
        · simp only [coder_agent] at h
          rw [if_pos htc, if_pos hna] at h
          have hr : r = ⟨CoderPath.adapted, written_files adapted, []⟩ :=
            (Except.ok.inj h).symm
          subst hr
          exact ⟨fun hp => CoderPath.noConfusion hp, fun _ => rfl⟩
        · simp only [coder_agent] at h
          rw [if_pos htc, if_neg hna] at h
          exact hfull gr h
    · simp only [coder_agent] at h
      rw [if_neg htc] at h
      exact hfull gr h

/-- Witness for the amended C7 at a concrete adaptation-branch execution. -/
theorem coder_messages_update_by_path_w :
    (⟨CoderPath.adapted, written_files [("agents_code", "adapted agents src")], []⟩ :
      CoderResult).messagesUpdate = [] :=
  (coder_messages_update_by_path demoCoderDeps
    ⟨CoderPath.adapted, written_files [("agents_code", "adapted agents src")], []⟩ rfl).2 rfl

/-- C6 counterexample: a completion-service failure inside the Scope stage
is not caught there - the stage's outcome is the raw error, not a degraded
non-empty textual result appended to state. -/
theorem scope_propagates_provider_error :
    define_scope_with_reasoner c6Deps = Except.error "completion provider down" := rfl

/-- C6 amended: template-processing failures inside CodeGeneration are
caught (the stage falls back to full generation) and document-index failures
inside Scope are caught by the listing helper (yielding the empty page
list), but a completion-service failure inside a stage - here the Scope
reasoner call - propagates to the caller instead of being converted into a
degraded textual result. -/
theorem stage_error_handling_amended (sd : ScopeDeps) (cd : CoderDeps)
    (e e' : String) (j : MsgBlob)
    (hr : sd.reasonerRun (list_documentation_pages_helper sd.docPages) = Except.error e)
    (hf : cd.findRes = Except.error e') (hg : cd.genRes = Except.ok j) :
    define_scope_with_reasoner sd = Except.error e ∧
    coder_agent cd = Except.ok ⟨CoderPath.fullGen, [], [j]⟩ ∧
    list_documentation_pages_helper (Except.error e) = [] := by
  refine ⟨?_, ?_, rfl⟩
  · unfold define_scope_with_reasoner
    rw [hr]
  · unfold coder_agent
    rw [hf, hg]
    rfl

/-- Witness for the amended C6 on concrete failing collaborators. -/
theorem stage_error_handling_amended_w :
    define_scope_with_reasoner c6Deps = Except.error "completion provider down" ∧
    coder_agent ⟨Except.error "template lookup down", Except.ok [], Except.ok "gen transcript"⟩ =
      Except.ok ⟨CoderPath.fullGen, [], ["gen transcript"]⟩ ∧
    list_documentation_pages_helper (Except.error "completion provider down") = [] :=
  stage_error_handling_amended c6Deps
    ⟨Except.error "template lookup down", Except.ok [], Except.ok "gen transcript"⟩
    "completion provider down" "template lookup down" "gen transcript" rfl rfl rfl

/-- C8: a run on a fresh session executes, in order, exactly Scope,
Architecture, ImplementationPlan and CodeGeneration and then suspends at the
await-user-input node (it does not terminate); no unconditional edge targets
Finalization, so `finish_conversation` is reachable only through the
conditional routing of a resume whose classification is the Finish marker -
in which case Finalization runs and the session completes. -/
theorem fresh_run_stage_order :
    run_until_interrupt 8 Node.start =
      ([Node.define_scope_with_reasoner, Node.create_architecture,
        Node.create_implementation_plan, Node.coder_agent], RunOutcome.suspended) ∧
    (∀ n : Node, static_successor n ≠ some Node.finish_conversation) ∧
    (∀ s : String,
      (route_user_message s = "finish_conversation" →
        resume_from_interrupt s 8 = ([Node.finish_conversation], RunOutcome.completed)) ∧
      (route_user_message s ≠ "finish_conversation" →
        conditional_successor (route_user_message s) = some Node.coder_agent)) := by
  refine ⟨rfl, ?_, ?_⟩
  · intro n
    cases n <;> simp [static_successor]
  · intro s
    constructor
    · intro hfin
      unfold resume_from_interrupt
      rw [hfin]
      rfl
    · intro hfin
      have hcont : route_user_message s = "coder_agent" := by
        unfold route_user_message at hfin ⊢
        by_cases h : s = "finish_conversation"
        · simp [h] at hfin
        · simp [h]
      rw [hcont]
      rfl

/-- Witness for C8 at the concrete Finish classification. -/
theorem fresh_run_stage_order_w :
    resume_from_interrupt "finish_conversation" 8 =
      ([Node.finish_conversation], RunOutcome.completed) :=
  (fresh_run_stage_order.2.2 "finish_conversation").1 (by decide)

/-- C9: the JSON-recovery parser parses the single-quoted object to the
mapping a maps-to 1, parses the object embedded in surrounding text to the
same mapping, and returns `none` (it is total, so it cannot raise) on any
input on which all four of its layers fail. -/
theorem clean_and_parse_json_cases :
    clean_and_parse_json "\x7b'a':1\x7d" = some (Json.obj [("a", Json.num 1)]) ∧
    clean_and_parse_json "prefix \x7b\"a\":1\x7d suffix" =
      some (Json.obj [("a", Json.num 1)]) ∧
    ∀ s, fullyUnparsable s → clean_and_parse_json s = none := by
  refine ⟨rfl, rfl, ?_⟩
  intro s hs
  obtain ⟨h1, h2, h3, h4⟩ := hs
  unfold clean_and_parse_json
  by_cases he : s = ""
  · rw [if_pos he]
  · rw [if_neg he, h1, h2, h3, h4]

/-- Witness for C9 at a concrete fully unparsable input. -/
theorem clean_and_parse_json_cases_w :
    fullyUnparsable "hello world" ∧ clean_and_parse_json "hello world" = none :=
  ⟨⟨rfl, rfl, rfl, rfl⟩,
   clean_and_parse_json_cases.2.2 "hello world" ⟨rfl, rfl, rfl, rfl⟩⟩

end Cogentx
